import Mathlib

/-!
Verification of the retrieval subsystem (Document Store) of the MCP-powered
Agentic RAG repository, a thin wrapper (class ChromaTool in
src/tools/chromadb_tool.py) around an external vector-index provider
(ChromaDB).

The wrapper code is embedded faithfully from the Python source.  The external
provider (the chromadb client and collection objects) is not part of the
repository; its operations are modelled from the specification's description
of the external collaborator (spec section 6: upsert-by-id, delete-by-
collection, k-nearest-neighbour query with truncation, exact count) and its
error taxonomy (spec section 7: InvalidArgument for empty / mismatched /
non-unique inputs, StorageError for delete on a missing collection).
Embeddings and cosine distances are abstracted into a distance function
parameter of type String to String to Rat (query text, document text,
distance; lower = more similar), standing in for the external embedding
provider.
-/

/-- Metadata of a document: a string-keyed dictionary, modelled as an
association list (Python dict of a document's metadata). -/
abbrev Metadata : Type := List (String × String)

/-- Python dict.get with a default: meta.get(key, dflt). -/
def dictGet (m : Metadata) (key dflt : String) : String :=
  match List.find? (fun p => p.1 == key) m with
  | some p => p.2
  | none => dflt

/-- One stored document of a collection: id, text and metadata.  The
embedding vector is abstracted away (it is derived data produced by the
external embedding provider and never inspected by the wrapper). -/
structure Entry where
  id : String
  text : String
  metadata : Metadata
deriving DecidableEq

/-- A named collection's contents: the sequence of stored documents. -/
structure Collection where
  entries : List Entry
deriving DecidableEq

/-- Exact count of stored documents, read directly from the store
(models collection.count() of the provider, spec section 6). -/
def Collection.count (c : Collection) : Nat := c.entries.length

/-- Error taxonomy of the modelled provider, following spec section 7. -/
inductive ChromaError where
  | invalidArgument (msg : String)
  | invalidCollection (msg : String)
  | storageError (msg : String)
deriving DecidableEq

/-- The external client's state: the collections it holds, by name
(models the chromadb PersistentClient). -/
structure ChromaClient where
  collections : List (String × Collection)
deriving DecidableEq

/-- State of a ChromaTool instance (class ChromaTool, src/tools/chromadb_tool.py):
the client it talks to and the configuration fixed at construction. -/
structure ChromaTool where
  client : ChromaClient
  collection_name : String
  persist_dir : String
deriving DecidableEq

/-- Resolve the tool's collection handle (self.collection) against the
client state: operations on a deleted collection fail, as the provider
validates existence at each call. -/
def lookupCollection (t : ChromaTool) : Option Collection :=
  (t.client.collections.find? fun p => p.1 == t.collection_name).map (fun p => p.2)

/-- Replace the contents of the tool's collection in the client state. -/
def setCollection (t : ChromaTool) (c : Collection) : ChromaTool :=
  { t with client :=
      ⟨t.client.collections.map fun p =>
        if p.1 == t.collection_name then (p.1, c) else p⟩ }

/-- ChromaTool construction (the get-or-create step of the source's
init method): opens the named collection if the client has it, else
creates it empty. -/
def ChromaTool.init (persist_dir collection_name : String) (client : ChromaClient) : ChromaTool :=
  { client :=
      if client.collections.any (fun p => p.1 == collection_name) then client
      else ⟨client.collections ++ [(collection_name, ⟨[]⟩)]⟩,
    collection_name := collection_name,
    persist_dir := persist_dir }

/-- Upsert of a single entry by id: overwrite if the id exists, else
append (spec sections 6 and 9: the provider's upsert-by-id, duplicate ids
against the store overwrite). -/
def upsertOne (es : List Entry) (e : Entry) : List Entry :=
  if es.any fun x => x.id == e.id then
    es.map fun x => if x.id == e.id then e else x
  else es ++ [e]

/-- Upsert a batch of entries, in order. -/
def upsertAll (es : List Entry) (batch : List Entry) : List Entry :=
  batch.foldl upsertOne es

/-- Pair up ids, documents and metadatas positionally into entries. -/
def mkEntries : List String → List String → List Metadata → List Entry
  | i :: is, d :: ds, m :: ms => { id := i, text := d, metadata := m } :: mkEntries is ds ms
  | _, _, _ => []

/-- Modelled from the spec: collection.add of the external provider
(not repository code).  Validates its arguments per spec section 7
(InvalidArgument on an empty id list, mismatched id/document/metadata
lengths, or non-unique ids within the batch) and commits nothing on
failure; on success it upserts every entry (spec sections 6 and 9). -/
def Collection.add (c : Collection) (documents ids : List String)
    (metadatas : List Metadata) : Except ChromaError Collection :=
  if ids.isEmpty then
    .error (.invalidArgument "Expected ids to be a non-empty list")
  else if ids.length != documents.length then
    .error (.invalidArgument "Number of ids must match number of documents")
  else if metadatas.length != documents.length then
    .error (.invalidArgument "Number of metadatas must match number of documents")
  else if ids.Nodup then
    .ok ⟨upsertAll c.entries (mkEntries ids documents metadatas)⟩
  else
    .error (.invalidArgument "Expected ids to be unique")

/-- The generated placeholder ids of add_documents:
doc_0, doc_1, ..., doc_(k-1) for k documents. -/
def defaultIds (documents : List String) : List String :=
  (List.range documents.length).map fun i => "doc_" ++ Nat.repr i

/-- The id-defaulting step of add_documents: Python "if not ids:"
treats both None and the empty list as absent. -/
def resolveIds (ids : Option (List String)) (documents : List String) : List String :=
  match ids with
  | none => defaultIds documents
  | some l => if l.isEmpty then defaultIds documents else l

/-- The default metadata assigned by add_documents when metadata is
omitted: source maps to "unknown" for every document. -/
def defaultMeta (documents : List String) : List Metadata :=
  documents.map fun _ => [("source", "unknown")]

/-- The metadata-defaulting step of add_documents: Python "if not metadata:"
treats both None and the empty list as absent. -/
def resolveMeta (metadata : Option (List Metadata)) (documents : List String) : List Metadata :=
  match metadata with
  | none => defaultMeta documents
  | some l => if l.isEmpty then defaultMeta documents else l

/-- ChromaTool.add_documents (src/tools/chromadb_tool.py lines 45-66):
defaults ids and metadata when absent, then hands the batch to the
provider's collection.add. -/
def ChromaTool.add_documents (t : ChromaTool) (documents : List String)
    (ids : Option (List String)) (metadata : Option (List Metadata)) :
    Except ChromaError ChromaTool :=
  let ids0 := resolveIds ids documents
  let metadata0 := resolveMeta metadata documents
  match lookupCollection t with
  | none => .error (.invalidCollection "Collection does not exist")
  | some c => (c.add documents ids0 metadata0).map fun c2 => setCollection t c2

/-- Comparison of scored entries by distance, ascending. -/
def distLE (a b : Entry × ℚ) : Prop := a.2 ≤ b.2

instance : DecidableRel distLE := fun a b =>
  inferInstanceAs (Decidable (a.2 ≤ b.2))

/-- The raw shape of the provider's collection.query result: one inner
list per query text (the wrapper always passes exactly one query text). -/
structure QueryRaw where
  documents : List (List String)
  ids : List (List String)
  distances : List (List ℚ)
  metadatas : List (List Metadata)

/-- Modelled from the spec: collection.query of the external provider
(not repository code).  Per spec sections 3 and 6, it ranks all stored
entries by ascending distance to the query and returns the first
n_results of them, truncating (never failing) when fewer are stored. -/
def Collection.query (c : Collection) (dist : String → String → ℚ)
    (q : String) (n_results : Nat) : QueryRaw :=
  let scored := c.entries.map fun e => (e, dist q e.text)
  let ranked := (List.insertionSort distLE scored).take n_results
  { documents := [ranked.map fun p => p.1.text],
    ids := [ranked.map fun p => p.1.id],
    distances := [ranked.map fun p => p.2],
    metadatas := [ranked.map fun p => p.1.metadata] }

/-- Python "xs[0] if xs else []". -/
def headOrElse : List (List α) → List α
  | [] => []
  | x :: _ => x

/-- The dictionary returned by ChromaTool.search: exactly the four keys
documents, ids, distances and metadatas, each bound to a list. -/
structure SearchResult where
  documents : List String
  ids : List String
  distances : List ℚ
  metadatas : List Metadata
deriving DecidableEq

/-- ChromaTool.search (src/tools/chromadb_tool.py lines 68-89): queries
the collection with the single query text and flattens each field of the
raw result with the pattern "results[k][0] if results[k] else []". -/
def ChromaTool.search (t : ChromaTool) (dist : String → String → ℚ)
    (query : String) (n_results : Nat) : Except ChromaError SearchResult :=
  match lookupCollection t with
  | none => .error (.invalidCollection "Collection does not exist")
  | some c =>
    let results := c.query dist query n_results
    .ok { documents := headOrElse results.documents,
          ids := headOrElse results.ids,
          distances := headOrElse results.distances,
          metadatas := headOrElse results.metadatas }

/-- Python string slicing s[:n], taking the first n characters. -/
def pyTrunc (s : String) (n : Nat) : String := String.mk (s.data.take n)

/-- The Content line of one formatted block: document text truncated to
500 characters with "..." appended exactly when it is longer than 500. -/
def contentLine (doc : String) : String :=
  if doc.length > 500 then "Content: " ++ pyTrunc doc 500 ++ "...\n"
  else "Content: " ++ doc ++ "\n"

/-- The Source line of one formatted block: emitted only when the
metadata dictionary is non-empty (Python "if meta:"), with default
"Unknown" when the source key is absent. -/
def sourceLine (meta : Metadata) : String :=
  if meta.isEmpty then "" else "Source: " ++ dictGet meta "source" "Unknown" ++ "\n"

/-- One numbered block of search_formatted's output. -/
def docBlock (i : Nat) (doc : String) (meta : Metadata) : String :=
  "\n[Document " ++ Nat.repr i ++ "]\n" ++ contentLine doc ++ sourceLine meta

/-- The loop of search_formatted: blocks numbered consecutively from i
(the source enumerates from 1) over the zipped documents and metadatas. -/
def renderBlocks : Nat → List (String × Metadata) → String
  | _, [] => ""
  | i, (doc, meta) :: rest => docBlock i doc meta ++ renderBlocks (i + 1) rest

/-- The fixed header of search_formatted's output: title line, then a
rule of 50 dashes. -/
def headerBlock : String :=
  "Retrieved Documents:\n" ++ String.mk (List.replicate 50 '-') ++ "\n"

/-- ChromaTool.search_formatted (src/tools/chromadb_tool.py lines 91-116):
renders search results as text, or the fixed sentinel string when the
search yielded no documents. -/
def ChromaTool.search_formatted (t : ChromaTool) (dist : String → String → ℚ)
    (query : String) (n_results : Nat) : Except ChromaError String :=
  (ChromaTool.search t dist query n_results).map fun results =>
    if results.documents.isEmpty then "No documents found matching the query."
    else headerBlock ++ renderBlocks 1 (results.documents.zip results.metadatas)

/-- ChromaTool.delete_collection (src/tools/chromadb_tool.py lines 118-121).
Modelled from the spec: client.delete_collection of the external provider
removes the named collection, and deleting a missing collection is a
storage failure (spec section 7 names "delete on missing collection" a
StorageError). -/
def ChromaTool.delete_collection (t : ChromaTool) : Except ChromaError ChromaTool :=
  if t.client.collections.any (fun p => p.1 == t.collection_name) then
    .ok { t with client :=
      ⟨t.client.collections.filter fun p => p.1 != t.collection_name⟩ }
  else .error (.storageError "Collection not found")

/-- The statistics dictionary of get_collection_stats. -/
structure Stats where
  collection_name : String
  document_count : Nat
  persist_dir : String
deriving DecidableEq

/-- ChromaTool.get_collection_stats (src/tools/chromadb_tool.py lines
123-130): reads the exact current count from the collection. -/
def ChromaTool.get_collection_stats (t : ChromaTool) : Except ChromaError Stats :=
  match lookupCollection t with
  | none => .error (.invalidCollection "Collection does not exist")
  | some c =>
    .ok { collection_name := t.collection_name,
          document_count := c.count,
          persist_dir := t.persist_dir }

instance {ε α : Type} [DecidableEq ε] [DecidableEq α] : DecidableEq (Except ε α) := fun x y =>
  match x, y with
  | .ok a, .ok b =>
    if h : a = b then .isTrue (by rw [h]) else .isFalse (fun hc => h (Except.ok.inj hc))
  | .error a, .error b =>
    if h : a = b then .isTrue (by rw [h]) else .isFalse (fun hc => h (Except.error.inj hc))
  | .ok _, .error _ => .isFalse (fun hc => Except.noConfusion hc)
  | .error _, .ok _ => .isFalse (fun hc => Except.noConfusion hc)

/-- Whether pat occurs at the start of a character list. -/
def listStartsWith : List Char → List Char → Bool
  | [], _ => true
  | _ :: _, [] => false
  | p :: ps, c :: cs => p == c && listStartsWith ps cs

/-- Whether pat occurs as a contiguous run anywhere in a character list. -/
def listHasSub (pat : List Char) : List Char → Bool
  | [] => pat.isEmpty
  | c :: cs => listStartsWith pat (c :: cs) || listHasSub pat cs

/-- Whether pat occurs as a substring of s. -/
def strHasSub (pat s : String) : Bool := listHasSub pat.data s.data

/-! Concrete states shared by the witnesses and counterexamples below. -/

/-- A trivial stand-in distance function (constant zero). -/
def distZero : String → String → ℚ := fun _ _ => 0

/-- A client holding no collections yet. -/
def clientEmpty : ChromaClient := ⟨[]⟩

/-- A freshly initialized tool over an empty client. -/
def toolEmpty : ChromaTool := ChromaTool.init "./vector_store" "documents" clientEmpty

/-- A tool whose collection holds two documents. -/
def toolTwo : ChromaTool :=
  ⟨⟨[("documents", ⟨[⟨"x", "alpha", [("source", "unknown")]⟩,
                     ⟨"y", "beta", [("source", "unknown")]⟩]⟩)]⟩,
   "documents", "./vector_store"⟩

/-- The client state after the tool's collection has been removed. -/
def toolDeleted : ChromaTool := ⟨⟨[]⟩, "documents", "./vector_store"⟩

/-! Helper lemmas about the client state and the upsert model. -/

theorem find?_map_set (name : String) (c' : Collection) :
    ∀ l : List (String × Collection),
      (List.find? (fun p => p.1 == name) l).isSome = true →
      List.find? (fun p => p.1 == name)
        (l.map fun p => if p.1 == name then (p.1, c') else p) = some (name, c') := by
  intro l
  induction l with
  | nil => intro h; simp [List.find?] at h
  | cons hd tl ih =>
    intro h
    by_cases hk : (hd.1 == name) = true
    · have heq : hd.1 = name := by simpa using hk
      simp [List.find?, hk, heq]
    · have h' : (List.find? (fun p => p.1 == name) tl).isSome = true := by
        simpa [List.find?, hk] using h
      simpa [List.find?, hk] using ih h'

theorem lookupCollection_setCollection (t : ChromaTool) (c c' : Collection)
    (h : lookupCollection t = some c) :
    lookupCollection (setCollection t c') = some c' := by
  have hs : (List.find? (fun p => p.1 == t.collection_name)
      t.client.collections).isSome = true := by
    unfold lookupCollection at h
    cases hf : List.find? (fun p => p.1 == t.collection_name) t.client.collections with
    | none => rw [hf] at h; simp at h
    | some p => simp [hf]
  unfold lookupCollection setCollection
  rw [find?_map_set t.collection_name c' t.client.collections hs]
  rfl

theorem upsertOne_fresh (es : List Entry) (e : Entry) (h : ∀ x ∈ es, x.id ≠ e.id) :
    upsertOne es e = es ++ [e] := by
  have hany : (es.any fun x => x.id == e.id) = false := by
    rw [List.any_eq_false]
    intro x hx
    simp [h x hx]
  rw [upsertOne, hany]
  simp

theorem length_upsertAll_fresh :
    ∀ (batch es : List Entry),
      (∀ b ∈ batch, ∀ x ∈ es, x.id ≠ b.id) →
      (batch.map Entry.id).Nodup →
      (upsertAll es batch).length = es.length + batch.length := by
  intro batch
  induction batch with
  | nil => intro es _ _; simp [upsertAll]
  | cons b bs ih =>
    intro es hfresh hnodup
    rw [List.map_cons] at hnodup
    have hb : ∀ x ∈ es, x.id ≠ b.id := hfresh b (by simp)
    have hstep : upsertAll es (b :: bs) = upsertAll (es ++ [b]) bs := by
      simp [upsertAll, List.foldl, upsertOne_fresh es b hb]
    have hhead : ∀ b' ∈ bs, b'.id ≠ b.id := by
      intro b' hb' hcon
      exact (List.nodup_cons.mp hnodup).1 (hcon ▸ List.mem_map_of_mem Entry.id hb')
    have hfresh' : ∀ b' ∈ bs, ∀ x ∈ es ++ [b], x.id ≠ b'.id := by
      intro b' hb' x hx
      rcases List.mem_append.mp hx with hxe | hxb
      · exact hfresh b' (by simp [hb']) x hxe
      · have hxb' : x = b := by simpa using hxb
        rw [hxb']
        exact fun hcon => hhead b' hb' hcon.symm
    rw [hstep, ih (es ++ [b]) hfresh' (List.nodup_cons.mp hnodup).2]
    simp only [List.length_append, List.length_cons, List.length_nil]
    omega

theorem mkEntries_map_id :
    ∀ (ids docs : List String) (metas : List Metadata),
      ids.length = docs.length → ids.length = metas.length →
      (mkEntries ids docs metas).map Entry.id = ids := by
  intro ids
  induction ids with
  | nil =>
    intro docs metas _ _
    cases docs <;> cases metas <;> simp [mkEntries]
  | cons i is ih =>
    intro docs metas h1 h2
    cases docs with
    | nil => simp at h1
    | cons d ds =>
      cases metas with
      | nil => simp at h2
      | cons m ms =>
        simp [mkEntries, ih ds ms (by simpa using h1) (by simpa using h2)]

theorem mkEntries_length (ids docs : List String) (metas : List Metadata)
    (h1 : ids.length = docs.length) (h2 : ids.length = metas.length) :
    (mkEntries ids docs metas).length = ids.length := by
  have := congrArg List.length (mkEntries_map_id ids docs metas h1 h2)
  simpa using this

/-- C1: for every non-empty list of documents added with fresh (and
pairwise distinct) ids, add_documents succeeds, and get_collection_stats
afterwards reports a document_count that is the exact entry count of the
backing collection and exceeds the previous count by exactly the number
of documents added. -/
theorem C1_add_fresh_increases_count
    (t : ChromaTool) (c : Collection) (documents ids : List String)
    (metadata : Option (List Metadata))
    (hl : lookupCollection t = some c)
    (hne : documents ≠ [])
    (hlen : ids.length = documents.length)
    (hnodup : ids.Nodup)
    (hfresh : ∀ i ∈ ids, ∀ x ∈ c.entries, x.id ≠ i)
    (hmlen : (resolveMeta metadata documents).length = documents.length) :
    ∃ t' c', ChromaTool.add_documents t documents (some ids) metadata = .ok t' ∧
      lookupCollection t' = some c' ∧
      c'.count = c.count + documents.length ∧
      ChromaTool.get_collection_stats t' =
        .ok ⟨t.collection_name, c'.count, t.persist_dir⟩ := by
  have hdocs_len : documents.length ≠ 0 := by
    intro h0
    exact hne (List.eq_nil_of_length_eq_zero h0)
  have hids_ne : ids ≠ [] := by
    intro h
    rw [h] at hlen
    exact hdocs_len hlen.symm
  have hids_empty : ids.isEmpty = false := by
    cases ids with
    | nil => exact absurd rfl hids_ne
    | cons a l => rfl
  have hres : resolveIds (some ids) documents = ids := by
    simp [resolveIds, hids_empty]
  have hmlen2 : ids.length = (resolveMeta metadata documents).length := by
    rw [hmlen, hlen]
  have hmk_id : (mkEntries ids documents (resolveMeta metadata documents)).map Entry.id = ids :=
    mkEntries_map_id ids documents _ hlen hmlen2
  have hadd : Collection.add c documents ids (resolveMeta metadata documents) =
      .ok ⟨upsertAll c.entries (mkEntries ids documents (resolveMeta metadata documents))⟩ := by
    simp [Collection.add, hids_empty, hlen, hmlen, hnodup]
  refine ⟨setCollection t ⟨upsertAll c.entries (mkEntries ids documents (resolveMeta metadata documents))⟩,
          ⟨upsertAll c.entries (mkEntries ids documents (resolveMeta metadata documents))⟩,
          ?_, ?_, ?_, ?_⟩
  · unfold ChromaTool.add_documents
    rw [hl, hres]
    simp only [hadd]
    rfl
  · exact lookupCollection_setCollection t c _ hl
  · have hfresh2 : ∀ b ∈ mkEntries ids documents (resolveMeta metadata documents),
        ∀ x ∈ c.entries, x.id ≠ b.id := by
      intro bb hbb x hx
      have hbid : bb.id ∈ ids := by
        rw [← hmk_id]
        exact List.mem_map_of_mem Entry.id hbb
      exact hfresh bb.id hbid x hx
    have hnodup2 : ((mkEntries ids documents (resolveMeta metadata documents)).map Entry.id).Nodup := by
      rw [hmk_id]
      exact hnodup
    show (upsertAll c.entries (mkEntries ids documents (resolveMeta metadata documents))).length
      = c.entries.length + documents.length
    rw [length_upsertAll_fresh _ _ hfresh2 hnodup2,
        mkEntries_length ids documents _ hlen hmlen2, hlen]
  · have hlook := lookupCollection_setCollection t c
      ⟨upsertAll c.entries (mkEntries ids documents (resolveMeta metadata documents))⟩ hl
    unfold ChromaTool.get_collection_stats
    rw [hlook]
    rfl

theorem C1_witness :
    ∃ t' c', ChromaTool.add_documents toolEmpty ["alpha", "beta"] (some ["x", "y"]) none = .ok t' ∧
      lookupCollection t' = some c' ∧
      c'.count = Collection.count ⟨[]⟩ + (["alpha", "beta"] : List String).length ∧
      ChromaTool.get_collection_stats t' =
        .ok ⟨toolEmpty.collection_name, c'.count, toolEmpty.persist_dir⟩ :=
  C1_add_fresh_increases_count toolEmpty ⟨[]⟩ ["alpha", "beta"] ["x", "y"] none
    (by decide) (by decide) (by decide) (by decide) (by decide) (by decide)

theorem search_ok (t : ChromaTool) (c : Collection) (dist : String → String → ℚ)
    (q : String) (n : Nat) (hl : lookupCollection t = some c) :
    t.search dist q n = .ok
      { documents := ((List.insertionSort distLE (c.entries.map fun e => (e, dist q e.text))).take n).map fun p => p.1.text,
        ids := ((List.insertionSort distLE (c.entries.map fun e => (e, dist q e.text))).take n).map fun p => p.1.id,
        distances := ((List.insertionSort distLE (c.entries.map fun e => (e, dist q e.text))).take n).map fun p => p.2,
        metadatas := ((List.insertionSort distLE (c.entries.map fun e => (e, dist q e.text))).take n).map fun p => p.1.metadata } := by
  unfold ChromaTool.search Collection.query
  rw [hl]
  rfl

/-- C2: with the collection present, search always succeeds; its result
has at most min(n_results, document_count) entries, and on an empty
collection it is the SearchResult with zero entries (never an error),
so requesting more results than stored documents merely truncates. -/
theorem C2_search_truncates (t : ChromaTool) (c : Collection)
    (dist : String → String → ℚ) (q : String) (n : Nat)
    (hl : lookupCollection t = some c) (_hn : 1 ≤ n) :
    ∃ r, t.search dist q n = .ok r ∧
      r.documents.length ≤ min n c.count ∧
      (c.count = 0 → r = ⟨[], [], [], []⟩) := by
  refine ⟨_, search_ok t c dist q n hl, ?_, ?_⟩
  · simp [Collection.count, List.length_take, List.length_insertionSort]
  · intro h0
    have hemp : c.entries = [] := List.eq_nil_of_length_eq_zero h0
    simp [hemp, List.insertionSort]

theorem C2_witness :
    ∃ r, ChromaTool.search toolTwo distZero "what" 5 = .ok r ∧
      r.documents.length ≤ min 5 (Collection.count ⟨[⟨"x", "alpha", [("source", "unknown")]⟩,
        ⟨"y", "beta", [("source", "unknown")]⟩]⟩) ∧
      (Collection.count ⟨[⟨"x", "alpha", [("source", "unknown")]⟩,
        ⟨"y", "beta", [("source", "unknown")]⟩]⟩ = 0 → r = ⟨[], [], [], []⟩) :=
  C2_search_truncates toolTwo _ distZero "what" 5 (by decide) (by decide)

/-- C3: whenever search yields zero documents, search_formatted returns
exactly the fixed sentinel string, as a success value (an ok result, not
an error). -/
theorem C3_sentinel_on_empty (t : ChromaTool) (dist : String → String → ℚ)
    (q : String) (n : Nat) (r : SearchResult)
    (h : t.search dist q n = .ok r) (hr : r.documents = []) :
    t.search_formatted dist q n = .ok "No documents found matching the query." := by
  unfold ChromaTool.search_formatted
  rw [h]
  simp [Except.map, hr]

theorem C3_witness :
    ChromaTool.search_formatted toolEmpty distZero "anything" 3 =
      .ok "No documents found matching the query." :=
  C3_sentinel_on_empty toolEmpty distZero "anything" 3 ⟨[], [], [], []⟩ (by decide) rfl

/-- C8: omitting ids in add_documents is equivalent to passing the
deterministic placeholder ids doc_0, ..., doc_(k-1), which depend only
on the number of documents in that single call; two calls over
equally long document lists generate the same id sequence. -/
theorem C8_generated_ids (t : ChromaTool) (documents documents2 : List String)
    (metadata : Option (List Metadata)) :
    ChromaTool.add_documents t documents none metadata =
      ChromaTool.add_documents t documents (some (defaultIds documents)) metadata ∧
    defaultIds documents = (List.range documents.length).map (fun i => "doc_" ++ Nat.repr i) ∧
    (documents.length = documents2.length → defaultIds documents = defaultIds documents2) := by
  refine ⟨?_, rfl, ?_⟩
  · have hres : resolveIds (some (defaultIds documents)) documents =
        resolveIds none documents := by
      simp only [resolveIds]
      by_cases h : (defaultIds documents).isEmpty
      · rw [if_pos h]
      · rw [if_neg h]
    simp only [ChromaTool.add_documents]
    rw [hres]
  · intro h
    unfold defaultIds
    rw [h]

theorem C8_witness :
    (ChromaTool.add_documents toolEmpty ["a", "b"] none none =
      ChromaTool.add_documents toolEmpty ["a", "b"] (some (defaultIds ["a", "b"])) none ∧
    defaultIds ["a", "b"] = (List.range (["a", "b"] : List String).length).map (fun i => "doc_" ++ Nat.repr i) ∧
    ((["a", "b"] : List String).length = (["c", "d"] : List String).length →
      defaultIds ["a", "b"] = defaultIds ["c", "d"])) ∧
    defaultIds ["a", "b"] = ["doc_0", "doc_1"] :=
  ⟨C8_generated_ids toolEmpty ["a", "b"] ["c", "d"] none, by decide⟩

/-- C10: every successful search returns a SearchResult, a structure with
exactly the four fields documents, ids, distances and metadatas, each a
list, and the four lists always have equal length (entry i of each list
describes the same ranked result). -/
theorem C10_search_result_aligned (t : ChromaTool) (dist : String → String → ℚ)
    (q : String) (n : Nat) (r : SearchResult)
    (h : t.search dist q n = .ok r) :
    r.ids.length = r.documents.length ∧
    r.distances.length = r.documents.length ∧
    r.metadatas.length = r.documents.length := by
  cases hl : lookupCollection t with
  | none =>
    unfold ChromaTool.search at h
    rw [hl] at h
    exact absurd h (by simp)
  | some c =>
    rw [search_ok t c dist q n hl] at h
    have hr := Except.ok.inj h
    rw [← hr]
    simp [List.length_map]

theorem C10_witness :
    (ChromaTool.search toolTwo distZero "q" 1 =
      .ok ⟨["alpha"], ["x"], [0], [[("source", "unknown")]]⟩) ∧
    ((["x"] : List String).length = (["alpha"] : List String).length ∧
     ([(0 : ℚ)] : List ℚ).length = (["alpha"] : List String).length ∧
     ([[("source", "unknown")]] : List Metadata).length = (["alpha"] : List String).length) :=
  ⟨by decide,
   C10_search_result_aligned toolTwo distZero "q" 1
     ⟨["alpha"], ["x"], [0], [[("source", "unknown")]]⟩ (by decide)⟩

theorem add_documents_eq (t : ChromaTool) (c : Collection)
    (documents : List String) (ids : Option (List String))
    (metadata : Option (List Metadata)) (hl : lookupCollection t = some c) :
    ChromaTool.add_documents t documents ids metadata =
      (Collection.add c documents (resolveIds ids documents)
        (resolveMeta metadata documents)).map (fun c2 => setCollection t c2) := by
  unfold ChromaTool.add_documents
  rw [hl]

theorem defaultIds_length (documents : List String) :
    (defaultIds documents).length = documents.length := by
  simp [defaultIds]

/-- C9: with the collection present, add_documents fails with an
InvalidArgument error — committing nothing, since no new state is
produced — when the documents list is empty, when explicit ids have a
length different from the documents, or when explicit metadata has a
length different from the documents. -/
theorem C9_add_invalid_arguments (t : ChromaTool) (c : Collection)
    (documents : List String) (ids : Option (List String)) (ms : List Metadata)
    (hl : lookupCollection t = some c) :
    (documents = [] →
      ∃ m, ChromaTool.add_documents t documents ids none = .error (.invalidArgument m)) ∧
    (∀ l, l ≠ [] → l.length ≠ documents.length →
      ∃ m, ChromaTool.add_documents t documents (some l) none = .error (.invalidArgument m)) ∧
    (documents ≠ [] → ms ≠ [] → ms.length ≠ documents.length →
      ∃ m, ChromaTool.add_documents t documents none (some ms) = .error (.invalidArgument m)) := by
  refine ⟨?_, ?_, ?_⟩
  · intro hd
    subst hd
    rw [add_documents_eq t c [] ids none hl]
    cases ids with
    | none => exact ⟨_, rfl⟩
    | some l =>
      cases l with
      | nil => exact ⟨_, rfl⟩
      | cons a as => exact ⟨_, rfl⟩
  · intro l hlne hllen
    rw [add_documents_eq t c documents (some l) none hl]
    cases l with
    | nil => exact absurd rfl hlne
    | cons a as =>
      have hb : ((a :: as).length != documents.length) = true := by
        simpa using hllen
      have hadd : Collection.add c documents (a :: as) (resolveMeta none documents) =
          .error (.invalidArgument "Number of ids must match number of documents") := by
        simp only [Collection.add]
        rw [if_neg (by simp), if_pos hb]
      have hres : resolveIds (some (a :: as)) documents = a :: as := rfl
      rw [hres, hadd]
      exact ⟨_, rfl⟩
  · intro hne hmsne hmslen
    rw [add_documents_eq t c documents none (some ms) hl]
    have hne2 : defaultIds documents ≠ [] := by
      intro h
      have hlen0 := congrArg List.length h
      rw [defaultIds_length] at hlen0
      exact hne (List.eq_nil_of_length_eq_zero hlen0)
    have h1 : (defaultIds documents).isEmpty = false := by
      cases hdd : defaultIds documents with
      | nil => exact absurd hdd hne2
      | cons a as => rfl
    have h2 : ((defaultIds documents).length != documents.length) = false := by
      simp [defaultIds_length]
    have hmres : resolveMeta (some ms) documents = ms := by
      cases ms with
      | nil => exact absurd rfl hmsne
      | cons m mss => rfl
    have h3 : (ms.length != documents.length) = true := by
      simpa using hmslen
    have hadd : Collection.add c documents (defaultIds documents) ms =
        .error (.invalidArgument "Number of metadatas must match number of documents") := by
      simp only [Collection.add]
      rw [if_neg (by simp [h1]), if_neg (by simp [h2]), if_pos h3]
    have hres : resolveIds none documents = defaultIds documents := rfl
    rw [hres, hmres, hadd]
    exact ⟨_, rfl⟩

theorem C9_witness :
    (( ["d"] : List String) = [] →
      ∃ m, ChromaTool.add_documents toolEmpty ["d"] (some ["i1", "i2"]) none =
        .error (.invalidArgument m)) ∧
    (∀ l, l ≠ [] → l.length ≠ (["d"] : List String).length →
      ∃ m, ChromaTool.add_documents toolEmpty ["d"] (some l) none =
        .error (.invalidArgument m)) ∧
    ((["d"] : List String) ≠ [] → ([[], []] : List Metadata) ≠ [] →
      ([[], []] : List Metadata).length ≠ (["d"] : List String).length →
      ∃ m, ChromaTool.add_documents toolEmpty ["d"] none (some [[], []]) =
        .error (.invalidArgument m)) :=
  C9_add_invalid_arguments toolEmpty ⟨[]⟩ ["d"] (some ["i1", "i2"]) [[], []] (by decide)

/-- A tool whose single stored document has an empty metadata dictionary. -/
def toolEmptyMeta : ChromaTool :=
  ⟨⟨[("documents", ⟨[⟨"x", "alpha", []⟩]⟩)]⟩, "documents", "./vector_store"⟩

/-- The output search_formatted produces for toolEmptyMeta: note the
block for the result has no Source line at all. -/
def c5out : String :=
  "Retrieved Documents:\n--------------------------------------------------\n\n[Document 1]\nContent: alpha\n"

/-- C5 (counterexample): a document stored with an explicitly empty
metadata dictionary is reachable through add_documents, and
search_formatted renders its block with no Source line whatsoever —
refuting the claim that every result gets a Source line (with "Unknown"
for an absent key). -/
theorem C5_counterexample :
    ChromaTool.add_documents toolEmpty ["alpha"] (some ["x"]) (some [[]]) = .ok toolEmptyMeta ∧
    ChromaTool.search_formatted toolEmptyMeta distZero "q" 3 = .ok c5out ∧
    strHasSub "Source:" c5out = false :=
  ⟨by decide, by decide, by decide⟩

/-- C5 (amended): search_formatted renders a Source line only for
results whose metadata dictionary is non-empty; for those, the line is
drawn from the source key with default "Unknown" when the key is absent.
Documents added with metadata omitted default to source "unknown" and
render as "Source: unknown"; a non-empty metadata dictionary lacking the
source key renders as "Source: Unknown"; an empty metadata dictionary
yields no Source line. -/
theorem C5_amended_source_rendering (documents : List String) (meta : Metadata)
    (i : Nat) (doc : String) :
    resolveMeta none documents = documents.map (fun _ => [("source", "unknown")]) ∧
    sourceLine [("source", "unknown")] = "Source: unknown\n" ∧
    (meta ≠ [] → sourceLine meta = "Source: " ++ dictGet meta "source" "Unknown" ++ "\n") ∧
    (meta ≠ [] → List.find? (fun p => p.1 == "source") meta = none →
      sourceLine meta = "Source: Unknown\n") ∧
    sourceLine [] = "" ∧
    docBlock i doc meta = "\n[Document " ++ Nat.repr i ++ "]\n" ++ contentLine doc ++ sourceLine meta := by
  refine ⟨rfl, by decide, ?_, ?_, rfl, rfl⟩
  · intro hm
    have hie : meta.isEmpty = false := by
      cases meta with
      | nil => exact absurd rfl hm
      | cons a as => rfl
    simp [sourceLine, hie]
  · intro hm hfind
    have hie : meta.isEmpty = false := by
      cases meta with
      | nil => exact absurd rfl hm
      | cons a as => rfl
    simp [sourceLine, hie, dictGet, hfind]

theorem C5_amended_witness :
    sourceLine [("type", "general")] = "Source: Unknown\n" ∧
    sourceLine [("source", "unknown")] = "Source: unknown\n" :=
  ⟨(C5_amended_source_rendering ["alpha"] [("type", "general")] 1 "alpha").2.2.2.1
      (by decide) (by decide),
   (C5_amended_source_rendering ["alpha"] [("source", "unknown")] 1 "alpha").2.1⟩

theorem any_name_of_lookup (t : ChromaTool) (c : Collection)
    (hl : lookupCollection t = some c) :
    t.client.collections.any (fun p => p.1 == t.collection_name) = true := by
  unfold lookupCollection at hl
  cases hf : List.find? (fun p => p.1 == t.collection_name) t.client.collections with
  | none => rw [hf] at hl; simp at hl
  | some p =>
    have hp := List.find?_some hf
    have hm := List.mem_of_find?_eq_some hf
    exact List.any_eq_true.mpr ⟨p, hm, hp⟩

theorem delete_collection_ok (t : ChromaTool) (c : Collection)
    (hl : lookupCollection t = some c) :
    ChromaTool.delete_collection t =
      .ok { t with client := ⟨t.client.collections.filter fun p => p.1 != t.collection_name⟩ } := by
  unfold ChromaTool.delete_collection
  rw [if_pos (any_name_of_lookup t c hl)]

theorem lookup_filtered (t : ChromaTool) :
    lookupCollection
      { t with client := ⟨t.client.collections.filter fun p => p.1 != t.collection_name⟩ } = none := by
  unfold lookupCollection
  have hfind : List.find? (fun p => p.1 == t.collection_name)
      (t.client.collections.filter fun p => p.1 != t.collection_name) = none := by
    rw [List.find?_eq_none]
    intro x hx
    have h2 := (List.mem_filter.mp hx).2
    simpa using h2
  rw [hfind]
  rfl

theorem any_filtered_false (t : ChromaTool) :
    (t.client.collections.filter fun p => p.1 != t.collection_name).any
      (fun p => p.1 == t.collection_name) = false := by
  rw [List.any_eq_false]
  intro x hx
  have h2 := (List.mem_filter.mp hx).2
  simpa using h2

/-- C6 (counterexample): deleting the collection and then calling
delete_collection again fails with a StorageError instead of
succeeding, so delete_collection is not idempotent. -/
theorem C6_counterexample :
    ChromaTool.delete_collection toolTwo = .ok toolDeleted ∧
    ChromaTool.delete_collection toolDeleted = .error (.storageError "Collection not found") :=
  ⟨by decide, by decide⟩

/-- C6 (amended): delete_collection on an existing collection succeeds
and removes all documents and collection state; calling it again on the
already-removed collection fails with a StorageError (delete on a
missing collection), so the operation is not idempotent. -/
theorem C6_amended_delete_not_idempotent (t : ChromaTool) (c : Collection)
    (hl : lookupCollection t = some c) :
    ∃ t', ChromaTool.delete_collection t = .ok t' ∧
      lookupCollection t' = none ∧
      ChromaTool.delete_collection t' = .error (.storageError "Collection not found") := by
  refine ⟨_, delete_collection_ok t c hl, lookup_filtered t, ?_⟩
  unfold ChromaTool.delete_collection
  rw [if_neg (by simp [any_filtered_false t])]

theorem C6_witness :
    ∃ t', ChromaTool.delete_collection toolTwo = .ok t' ∧
      lookupCollection t' = none ∧
      ChromaTool.delete_collection t' = .error (.storageError "Collection not found") :=
  C6_amended_delete_not_idempotent toolTwo
    ⟨[⟨"x", "alpha", [("source", "unknown")]⟩, ⟨"y", "beta", [("source", "unknown")]⟩]⟩
    (by decide)

/-- C7 (counterexample): delete_collection followed by
get_collection_stats fails with an error (the tool's collection handle
refers to a collection the client no longer has), rather than reporting
a document_count of 0. -/
theorem C7_counterexample :
    ChromaTool.delete_collection toolTwo = .ok toolDeleted ∧
    ChromaTool.get_collection_stats toolDeleted =
      .error (.invalidCollection "Collection does not exist") :=
  ⟨by decide, by decide⟩

/-- C7 (amended): after a successful delete_collection, stats fails
with an error because the collection no longer exists; a
document_count of 0 is reported only by a tool freshly initialized over
a client without the collection (get-or-create creates it empty). -/
theorem C7_amended_stats_after_delete (t : ChromaTool) (c : Collection)
    (hl : lookupCollection t = some c) :
    (∃ t', ChromaTool.delete_collection t = .ok t' ∧
      ChromaTool.get_collection_stats t' =
        .error (.invalidCollection "Collection does not exist")) ∧
    (∀ pd cn, ChromaTool.get_collection_stats (ChromaTool.init pd cn clientEmpty) =
      .ok ⟨cn, 0, pd⟩) := by
  constructor
  · refine ⟨_, delete_collection_ok t c hl, ?_⟩
    unfold ChromaTool.get_collection_stats
    rw [lookup_filtered t]
  · intro pd cn
    simp [ChromaTool.init, clientEmpty, ChromaTool.get_collection_stats,
      lookupCollection, List.find?, Collection.count]

theorem C7_witness :
    ((∃ t', ChromaTool.delete_collection toolTwo = .ok t' ∧
      ChromaTool.get_collection_stats t' =
        .error (.invalidCollection "Collection does not exist")) ∧
    (∀ pd cn, ChromaTool.get_collection_stats (ChromaTool.init pd cn clientEmpty) =
      .ok ⟨cn, 0, pd⟩)) ∧
    ChromaTool.get_collection_stats (ChromaTool.init "./vector_store" "documents" clientEmpty) =
      .ok ⟨"documents", 0, "./vector_store"⟩ :=
  ⟨C7_amended_stats_after_delete toolTwo
    ⟨[⟨"x", "alpha", [("source", "unknown")]⟩, ⟨"y", "beta", [("source", "unknown")]⟩]⟩
    (by decide), by decide⟩

theorem pyTrunc_length (s : String) (n : Nat) : (pyTrunc s n).length = min n s.length := by
  cases s with
  | mk data => simp [pyTrunc, String.length, List.length_take]

theorem contentLine_long (doc : String) (h : 500 < doc.length) :
    contentLine doc = "Content: " ++ pyTrunc doc 500 ++ "...\n" := by
  unfold contentLine
  rw [if_pos h]

theorem contentLine_short (doc : String) (h : doc.length ≤ 500) :
    contentLine doc = "Content: " ++ doc ++ "\n" := by
  unfold contentLine
  rw [if_neg (by omega)]

theorem contentLine_length_le (doc : String) : (contentLine doc).length ≤ 513 := by
  unfold contentLine
  by_cases h : 500 < doc.length
  · rw [if_pos h, String.length_append, String.length_append]
    have ht : (pyTrunc doc 500).length = min 500 doc.length := pyTrunc_length doc 500
    have hmin : min 500 doc.length ≤ 500 := Nat.min_le_left _ _
    have h9 : ("Content: " : String).length = 9 := by decide
    have h4 : ("...\n" : String).length = 4 := by decide
    omega
  · rw [if_neg h, String.length_append, String.length_append]
    have h9 : ("Content: " : String).length = 9 := by decide
    have h1 : ("\n" : String).length = 1 := by decide
    omega

theorem sourceLine_length_le (meta : Metadata) (B : Nat)
    (hB : (dictGet meta "source" "Unknown").length ≤ B) :
    (sourceLine meta).length ≤ 9 + B := by
  unfold sourceLine
  by_cases h : meta.isEmpty
  · rw [if_pos h]
    simp
  · rw [if_neg h, String.length_append, String.length_append]
    have h8 : ("Source: " : String).length = 8 := by decide
    have h1 : ("\n" : String).length = 1 := by decide
    omega

theorem docBlock_length_le (i : Nat) (doc : String) (meta : Metadata) (B D : Nat)
    (hB : (dictGet meta "source" "Unknown").length ≤ B)
    (hD : (Nat.repr i).length ≤ D) :
    (docBlock i doc meta).length ≤ 535 + B + D := by
  unfold docBlock
  rw [String.length_append, String.length_append, String.length_append, String.length_append]
  have h11 : ("\n[Document " : String).length = 11 := by decide
  have h2 : ("]\n" : String).length = 2 := by decide
  have hc := contentLine_length_le doc
  have hs := sourceLine_length_le meta B hB
  omega

theorem renderBlocks_length_le :
    ∀ (pairs : List (String × Metadata)) (i B D : Nat),
      (∀ pm ∈ pairs, (dictGet pm.2 "source" "Unknown").length ≤ B) →
      (∀ j, i ≤ j → j < i + pairs.length → (Nat.repr j).length ≤ D) →
      (renderBlocks i pairs).length ≤ pairs.length * (535 + B + D) := by
  intro pairs
  induction pairs with
  | nil =>
    intro i B D _ _
    simp [renderBlocks]
  | cons pm rest ih =>
    intro i B D hB hD
    obtain ⟨doc, meta⟩ := pm
    simp only [List.length_cons] at hD ⊢
    show (docBlock i doc meta ++ renderBlocks (i + 1) rest).length ≤
      (rest.length + 1) * (535 + B + D)
    rw [String.length_append]
    have h1 : (docBlock i doc meta).length ≤ 535 + B + D :=
      docBlock_length_le i doc meta B D (hB (doc, meta) (by simp)) (hD i (le_refl i) (by omega))
    have h2 := ih (i + 1) B D (fun pm hpm => hB pm (by simp [hpm]))
      (fun j hj1 hj2 => hD j (by omega) (by omega))
    calc (docBlock i doc meta).length + (renderBlocks (i + 1) rest).length
        ≤ (535 + B + D) + rest.length * (535 + B + D) := Nat.add_le_add h1 h2
      _ = (rest.length + 1) * (535 + B + D) := by ring

theorem repr_length_le_log (j n : Nat) (hj : j ≤ n) :
    (Nat.repr j).length ≤ Nat.log 10 n + 1 :=
  Nat.repr_length j (Nat.log 10 n + 1) (Nat.succ_pos _)
    (lt_of_le_of_lt hj (Nat.lt_pow_succ_log_self (by norm_num) n))

theorem formatted_render_length_le (docs : List String) (metas : List Metadata) (B D : Nat)
    (hB : ∀ m ∈ metas, (dictGet m "source" "Unknown").length ≤ B)
    (hD : ∀ j, 1 ≤ j → j ≤ docs.length → (Nat.repr j).length ≤ D) :
    (if docs.isEmpty then "No documents found matching the query."
     else headerBlock ++ renderBlocks 1 (docs.zip metas)).length ≤
      72 + docs.length * (535 + B + D) := by
  by_cases hemp : docs.isEmpty
  · rw [if_pos hemp]
    have hsen : ("No documents found matching the query." : String).length = 38 := by decide
    omega
  · rw [if_neg hemp, String.length_append]
    have hh : headerBlock.length = 72 := by decide
    have hz : (docs.zip metas).length ≤ docs.length := by
      rw [List.length_zip]
      exact Nat.min_le_left _ _
    have hB' : ∀ pm ∈ docs.zip metas, (dictGet pm.2 "source" "Unknown").length ≤ B := by
      intro pm hpm
      exact hB pm.2 (List.of_mem_zip hpm).2
    have hD' : ∀ j, 1 ≤ j → j < 1 + (docs.zip metas).length → (Nat.repr j).length ≤ D := by
      intro j hj1 hj2
      exact hD j hj1 (by omega)
    have hrb := renderBlocks_length_le (docs.zip metas) 1 B D hB' hD'
    have hmul : (docs.zip metas).length * (535 + B + D) ≤ docs.length * (535 + B + D) :=
      Nat.mul_le_mul_right _ hz
    omega

/-- A stored source value of 1000 characters, far beyond any fixed
formatting overhead. -/
def longSource : String := String.mk (List.replicate 1000 'a')

/-- A tool storing a single one-character document whose metadata source
value is longSource. -/
def toolLongSource : ChromaTool :=
  ⟨⟨[("documents", ⟨[⟨"x", "d", [("source", longSource)]⟩]⟩)]⟩,
   "documents", "./vector_store"⟩

set_option maxRecDepth 8000 in
/-- C4 (counterexample): the output of search_formatted is not bounded
by n_results times 500 characters plus fixed formatting overhead,
because the Source line embeds the metadata source value verbatim: one
one-character document whose source value has 1000 characters yields an
output of 1106 characters at n_results = 1, exceeding the
data-independent claim-shaped bound 72 + min(1, 1) * (536 + log10 1)
= 608. -/
theorem C4_counterexample :
    ∃ out, ChromaTool.search_formatted toolLongSource distZero "q" 1 = .ok out ∧
      out.length = 1106 ∧
      72 + min 1 (Collection.count ⟨[⟨"x", "d", [("source", longSource)]⟩]⟩) *
        (536 + Nat.log 10 1) = 608 ∧
      ¬ (1106 ≤ 608) := by
  refine ⟨_, rfl, by decide, ?_, by decide⟩
  norm_num [Collection.count, Nat.log_one_right]

/-- C4 (amended): the excerpt search_formatted embeds for a document is
the text truncated to (at most) its first 500 characters, with "..."
appended exactly when the text exceeds 500 characters; and whenever
each stored metadata renders a source value of length at most B — a
bound the original claim lacked and without which no such bound holds,
see the counterexample — the whole output is bounded by a fixed header
size plus min(n_results, document_count) times a per-result bound of
500 characters plus fixed formatting overhead plus B (including the at
most log10(n_results)+1 digits of the result index). -/
theorem C4_excerpt_truncation_and_bounded_output
    (t : ChromaTool) (c : Collection) (dist : String → String → ℚ)
    (q : String) (n B : Nat)
    (hl : lookupCollection t = some c)
    (hB : ∀ e ∈ c.entries, (dictGet e.metadata "source" "Unknown").length ≤ B) :
    (∀ doc : String,
      (500 < doc.length →
        contentLine doc = "Content: " ++ pyTrunc doc 500 ++ "...\n" ∧
        (pyTrunc doc 500).length = 500) ∧
      (doc.length ≤ 500 → contentLine doc = "Content: " ++ doc ++ "\n")) ∧
    (∃ out, t.search_formatted dist q n = .ok out ∧
      out.length ≤ 72 + min n c.count * (536 + B + Nat.log 10 n)) := by
  constructor
  · intro doc
    constructor
    · intro h
      refine ⟨contentLine_long doc h, ?_⟩
      rw [pyTrunc_length]
      exact Nat.min_eq_left (le_of_lt h)
    · exact contentLine_short doc
  · unfold ChromaTool.search_formatted
    rw [search_ok t c dist q n hl]
    refine ⟨_, rfl, ?_⟩
    have hdl : (((List.insertionSort distLE (c.entries.map fun e => (e, dist q e.text))).take n).map
        (fun p => p.1.text)).length = min n c.count := by
      simp [List.length_map, List.length_take, List.length_insertionSort, Collection.count]
    have hB' : ∀ m ∈ ((List.insertionSort distLE (c.entries.map fun e => (e, dist q e.text))).take n).map
        (fun p => p.1.metadata), (dictGet m "source" "Unknown").length ≤ B := by
      intro m hm
      obtain ⟨p, hp, hpm⟩ := List.mem_map.mp hm
      have hp2 := List.mem_of_mem_take hp
      have hp3 := (List.mem_insertionSort distLE).mp hp2
      obtain ⟨e, he, hep⟩ := List.mem_map.mp hp3
      rw [← hpm, ← hep]
      exact hB e he
    have hD' : ∀ j, 1 ≤ j →
        j ≤ (((List.insertionSort distLE (c.entries.map fun e => (e, dist q e.text))).take n).map
          (fun p => p.1.text)).length →
        (Nat.repr j).length ≤ Nat.log 10 n + 1 := by
      intro j _ h2
      rw [hdl] at h2
      exact repr_length_le_log j n (le_trans h2 (Nat.min_le_left _ _))
    have hmain := formatted_render_length_le
      (((List.insertionSort distLE (c.entries.map fun e => (e, dist q e.text))).take n).map
        (fun p => p.1.text))
      (((List.insertionSort distLE (c.entries.map fun e => (e, dist q e.text))).take n).map
        (fun p => p.1.metadata))
      B (Nat.log 10 n + 1) hB' hD'
    rw [hdl] at hmain
    have heq : 72 + min n c.count * (535 + B + (Nat.log 10 n + 1)) =
        72 + min n c.count * (536 + B + Nat.log 10 n) := by ring
    exact heq ▸ hmain

theorem C4_witness :
    (∀ doc : String,
      (500 < doc.length →
        contentLine doc = "Content: " ++ pyTrunc doc 500 ++ "...\n" ∧
        (pyTrunc doc 500).length = 500) ∧
      (doc.length ≤ 500 → contentLine doc = "Content: " ++ doc ++ "\n")) ∧
    (∃ out, ChromaTool.search_formatted toolTwo distZero "q" 5 = .ok out ∧
      out.length ≤ 72 + min 5 (Collection.count ⟨[⟨"x", "alpha", [("source", "unknown")]⟩,
        ⟨"y", "beta", [("source", "unknown")]⟩]⟩) * (536 + 7 + Nat.log 10 5)) :=
  C4_excerpt_truncation_and_bounded_output toolTwo
    ⟨[⟨"x", "alpha", [("source", "unknown")]⟩, ⟨"y", "beta", [("source", "unknown")]⟩]⟩
    distZero "q" 5 7 (by decide) (by decide)
